import Mathlib

/-!
Verification of the body-composition and energy-expenditure calculation
engine of the ComVida application (src/app.py).

Python floats are modelled as real numbers (`ℝ`); the purely rational
calculators (BMI, energy expenditure) are modelled over `ℚ` so that they
stay executable.  `np.log10` is modelled by `Real.logb 10` and the Python
power operator on positive bases by `Real.rpow`.  Dictionaries of
measurements (`pliegues`, `diams`, `circs`) are modelled as structures
whose fields default to `0`, matching `dict.get(key, 0.0)` in the source.
-/

namespace ComVida

/-- Skinfold measurements (`pliegues` dictionary in src/app.py); the field
names follow the dictionary keys, and a missing key reads as `0`. -/
structure Pliegues where
  tricipital : ℝ := 0
  bicipital : ℝ := 0
  subescapular : ℝ := 0
  suprailiaco : ℝ := 0
  abdominal : ℝ := 0
  muslo_frontal : ℝ := 0
  pantorrilla_medial : ℝ := 0

/-- Bone diameter measurements (`diams` dictionary in src/app.py). -/
structure Diams where
  muneca : ℝ := 0
  femur : ℝ := 0
  humero : ℝ := 0

/-- Circumference measurements (`circs` dictionary in src/app.py). -/
structure Circs where
  brazo_relajado : ℝ := 0
  pantorrilla_maxima : ℝ := 0

/-- Embedding of `calcular_imc` (src/app.py lines 235-252): BMI value and
its diagnostic label. -/
def calcular_imc (peso talla_cm : ℚ) : ℚ × String :=
  if talla_cm = 0 ∨ peso = 0 then (0, "Sin datos")
  else
    let talla_m := talla_cm / 100
    let imc := peso / talla_m ^ 2
    let diagnostico :=
      if imc < 18.5 then "Bajo Peso"
      else if 18.5 ≤ imc ∧ imc < 25 then "Peso Normal"
      else if 25 ≤ imc ∧ imc < 30 then "Sobrepeso"
      else "Obesidad"
    (imc, diagnostico)

/-- Embedding of `calcular_get` (src/app.py lines 254-296): total energy
expenditure from a basal-rate formula and an activity factor. -/
def calcular_get (sexo : String) (peso talla_cm edad : ℚ)
    (actividad formula : String) (masa_magra : ℚ) : ℚ :=
  if peso = 0 ∨ talla_cm = 0 ∨ edad = 0 then 0
  else
    let geb : ℚ :=
      if formula = "Mifflin-St Jeor" then
        if sexo = "Masculino" then 10 * peso + 6.25 * talla_cm - 5 * edad + 5
        else 10 * peso + 6.25 * talla_cm - 5 * edad - 161
      else if formula = "Harris-Benedict" then
        if sexo = "Masculino" then
          88.362 + 13.397 * peso + 4.799 * talla_cm - 5.677 * edad
        else 447.593 + 9.247 * peso + 3.098 * talla_cm - 4.330 * edad
      else if formula = "Cunningham" then
        if masa_magra > 0 then 500 + 22 * masa_magra else 0
      else
        if sexo = "Masculino" then 10 * peso + 6.25 * talla_cm - 5 * edad + 5
        else 10 * peso + 6.25 * talla_cm - 5 * edad - 161
    let factor : ℚ :=
      if actividad = "Ligera" then 1.375
      else if actividad = "Moderada" then 1.55
      else 1.725
    geb * factor

/-- Embedding of `get_densidad_durnin` (src/app.py lines 300-329): body
density from the Durnin-Womersley sex/age-banded regression table, where
`L` is the caller-supplied `log10` of the 4-skinfold sum. -/
noncomputable def get_densidad_durnin (sexo : String) (edad L : ℝ) : ℝ :=
  if sexo = "Masculino" then
    if edad < 17 then 1.1533 - 0.0643 * L
    else if edad ≤ 19 then 1.1620 - 0.0630 * L
    else if edad ≤ 29 then 1.1631 - 0.0632 * L
    else if edad ≤ 39 then 1.1422 - 0.0544 * L
    else if edad ≤ 49 then 1.1620 - 0.0700 * L
    else 1.1715 - 0.0779 * L
  else
    if edad < 17 then 1.1369 - 0.0598 * L
    else if edad ≤ 19 then 1.1549 - 0.0678 * L
    else if edad ≤ 29 then 1.1599 - 0.0717 * L
    else if edad ≤ 39 then 1.1423 - 0.0632 * L
    else if edad ≤ 49 then 1.1333 - 0.0612 * L
    else 1.1339 - 0.0645 * L

/-- Embedding of `calcular_porcentaje_grasa_siri` (src/app.py lines
331-341): fat percentage from density via the Siri equation, clamped. -/
noncomputable def calcular_porcentaje_grasa_siri (densidad : ℝ) : ℝ :=
  if densidad ≤ 0 then 0
  else
    let porc_grasa := (4.95 / densidad - 4.5) * 100
    let porc_grasa := if porc_grasa < 0 then 0 else porc_grasa
    if porc_grasa > 60 then 60 else porc_grasa

/-- Result record of the two-compartment model (the dictionary returned by
`calcular_composicion_2c_durnin_siri`). -/
structure Comp2C where
  masa_grasa : ℝ
  masa_magra : ℝ
  porc_grasa : ℝ
  diag_grasa : String

/-- Embedding of `calcular_composicion_2c_durnin_siri` (src/app.py lines
413-454): two-compartment split via Durnin-Womersley density and Siri. -/
noncomputable def calcular_composicion_2c_durnin_siri (peso : ℝ) (sexo : String)
    (edad : ℝ) (pliegues : Pliegues) : Comp2C :=
  let suma_4_pliegues := pliegues.bicipital + pliegues.tricipital +
    pliegues.subescapular + pliegues.suprailiaco
  if suma_4_pliegues ≤ 0 then ⟨0, 0, 0, "Sin datos de pliegues"⟩
  else
    let L := Real.logb 10 suma_4_pliegues
    let densidad := get_densidad_durnin sexo edad L
    let porc_grasa := calcular_porcentaje_grasa_siri densidad
    if porc_grasa = 0 ∧ densidad ≤ 0 then ⟨0, 0, 0, "Error en cálculo de densidad"⟩
    else
      let masa_grasa := peso * (porc_grasa / 100)
      let masa_magra := peso - masa_grasa
      let diagnostico :=
        if porc_grasa < 10 then "Nivel de grasa muy bajo"
        else if 10 ≤ porc_grasa ∧ porc_grasa < 20 then "Nivel de grasa saludable (Atleta)"
        else if 20 ≤ porc_grasa ∧ porc_grasa < 30 then "Nivel de grasa saludable (Promedio)"
        else if 30 ≤ porc_grasa ∧ porc_grasa < 40 then "Nivel de grasa elevado (Sobrepeso)"
        else "Nivel de grasa muy elevado (Obesidad)"
      ⟨masa_grasa, masa_magra, porc_grasa, diagnostico⟩

/-- Result record of `calcular_composicion_personalizada` (the dictionary
returned on success). -/
structure CompPers where
  formula_usada : String
  dc : ℝ
  porc_grasa : ℝ
  masa_grasa : ℝ
  masa_magra : ℝ

/-- Embedding of `calcular_composicion_personalizada` (src/app.py lines
344-410).  The Python function returns a `(result, error)` pair where
exactly one side is `None`; the selection chain that either produces a
density or an error message is modelled by a `Sum`. -/
noncomputable def calcular_composicion_personalizada (formula_nombre sexo : String)
    (edad peso : ℝ) (pliegues : Pliegues) : Option CompPers × Option String :=
  let p_tri := pliegues.tricipital
  let p_bic := pliegues.bicipital
  let p_sub := pliegues.subescapular
  let p_sup := pliegues.suprailiaco
  let p_abd := pliegues.abdominal
  let p_mus := pliegues.muslo_frontal
  let dc_sel : String ⊕ ℝ :=
    if formula_nombre = "Sloan (1967) - Varones" ∧ sexo = "Masculino" then
      if p_mus = 0 ∨ p_sub = 0 then
        Sum.inl "Faltan pliegues de Muslo Frontal o Subescapular."
      else Sum.inr (1.1043 - 0.001327 * p_mus - 0.001310 * p_sub)
    else if formula_nombre = "Wilmore & Behnke (1969) - Varones" ∧ sexo = "Masculino" then
      if p_abd = 0 ∨ p_mus = 0 then
        Sum.inl "Faltan pliegues Abdominal o Muslo Frontal."
      else Sum.inr (1.08543 - 0.000886 * p_abd - 0.00040 * p_mus)
    else if formula_nombre = "Katch & McArdle (1973) - Varones" ∧ sexo = "Masculino" then
      if p_tri = 0 ∨ p_sub = 0 ∨ p_abd = 0 then
        Sum.inl "Faltan pliegues Triccipital, Subescapular o Abdominal."
      else Sum.inr (1.09655 - 0.00049 - 0.00103 * p_tri - 0.00056 * p_sub + 0.00054 * p_abd)
    else if formula_nombre = "Sloan, Burt, & Blyth (1962) - Mujeres" ∧ sexo = "Femenino" then
      if p_sup = 0 ∨ p_tri = 0 then
        Sum.inl "Faltan pliegues Suprailíaco (Cresta Iliaca) o Triccipital."
      else Sum.inr (1.0764 - 0.00081 * p_sup - 0.00088 * p_tri)
    else if formula_nombre = "Wilmore & Behnke (1970) - Mujeres" ∧ sexo = "Femenino" then
      if p_sub = 0 ∨ p_tri = 0 ∨ p_mus = 0 then
        Sum.inl "Faltan pliegues Subescapular, Triccipital o Muslo Frontal."
      else Sum.inr (1.06234 - 0.00068 * p_sub - 0.00039 * p_tri - 0.00025 * p_mus)
    else if formula_nombre = "Jackson, Pollock, & Ward (1980) - Mujeres" ∧ sexo = "Femenino" then
      if p_tri = 0 ∨ p_mus = 0 ∨ p_sup = 0 then
        Sum.inl "Faltan pliegues Triccipital, Muslo Frontal o Suprailíaco."
      else
        let suma_3_pliegues := p_tri + p_mus + p_sup
        if suma_3_pliegues ≤ 0 then Sum.inl "La suma de pliegues no puede ser cero."
        else
          let log_suma := Real.logb 10 suma_3_pliegues
          Sum.inr (1.221389 - 0.04057 * log_suma - 0.00016 * edad)
    else
      Sum.inl "La fórmula seleccionada no es compatible con el sexo del paciente o no es válida."
  match dc_sel with
  | Sum.inl msg => (none, some msg)
  | Sum.inr dc =>
    if dc ≤ 0 then (none, some "Cálculo de Densidad inválido (<= 0).")
    else
      let porc_grasa := calcular_porcentaje_grasa_siri dc
      let masa_grasa := peso * (porc_grasa / 100)
      let masa_magra := peso - masa_grasa
      (some ⟨formula_nombre, dc, porc_grasa, masa_grasa, masa_magra⟩, none)

/-- Embedding of `obtener_diagnostico_5c` (src/app.py lines 456-499):
diagnostic label for one component of the 5-compartment model. -/
noncomputable def obtener_diagnostico_5c (componente : String) (porc_valor : ℝ)
    (sexo : String) : String :=
  if componente = "MG" then
    if sexo = "Masculino" then
      if porc_valor < 8 then "Muy Bajo (Esencial)"
      else if porc_valor ≤ 15 then "Bajo (Atleta)"
      else if porc_valor ≤ 22 then "Saludable"
      else if porc_valor ≤ 28 then "Elevado"
      else "Muy Elevado"
    else
      if porc_valor < 15 then "Muy Bajo (Esencial)"
      else if porc_valor ≤ 22 then "Bajo (Atleta)"
      else if porc_valor ≤ 30 then "Saludable"
      else if porc_valor ≤ 38 then "Elevado"
      else "Muy Elevado"
  else if componente = "MM" then
    if sexo = "Masculino" then
      if porc_valor < 38 then "Bajo"
      else if porc_valor ≤ 44 then "Promedio"
      else if porc_valor ≤ 50 then "Alto (Atlético)"
      else "Muy Alto (Hipertrofia)"
    else
      if porc_valor < 30 then "Bajo"
      else if porc_valor ≤ 36 then "Promedio"
      else if porc_valor ≤ 42 then "Alto (Atlético)"
      else "Muy Alto (Hipertrofia)"
  else if componente = "MO" then
    if 12 ≤ porc_valor ∧ porc_valor ≤ 15 then "Promedio (Robusto)"
    else if porc_valor < 12 then "Ligero"
    else "Muy Robusto"
  else if componente = "MR" then "Componente fijo (Órganos)"
  else if componente = "MP" then "Componente fijo"
  else "N/A"

/-- Result record of the 5-compartment model (the `resultados` dictionary
of `calcular_composicion_5c_kerr`). -/
structure Resultados5C where
  mg_kg : ℝ := 0
  mg_porc : ℝ := 0
  mg_diag : String := "N/A"
  mo_kg : ℝ := 0
  mo_porc : ℝ := 0
  mo_diag : String := "N/A"
  mr_kg : ℝ := 0
  mr_porc : ℝ := 0
  mr_diag : String := "N/A"
  mp_kg : ℝ := 0
  mp_porc : ℝ := 0
  mp_diag : String := "N/A"
  mm_kg : ℝ := 0
  mm_porc : ℝ := 0
  mm_diag : String := "N/A"
  dc : ℝ := 0
  error : Option String := none
  suma_total : ℝ := 0

/-- Density used by the 5-compartment model (inlined in
`calcular_composicion_5c_kerr`, src/app.py lines 533-536): Durnin
regression without age correction. -/
noncomputable def densidad_durnin_sin_edad (sexo : String) (log_suma : ℝ) : ℝ :=
  if sexo = "Masculino" then 1.1765 - 0.0744 * log_suma
  else 1.1567 - 0.0717 * log_suma

/-- Embedding of `calcular_composicion_5c_kerr` (src/app.py lines 502-608):
the 5-compartment (Kerr/ISAK) model.  The Python function mutates a result
dictionary and returns early at each failed stage check; here each early
return produces the record populated exactly as far as the source had
populated it. -/
noncomputable def calcular_composicion_5c_kerr (peso talla_cm : ℝ) (sexo : String)
    (pliegues : Pliegues) (diams : Diams) : Resultados5C :=
  let H_m := talla_cm / 100
  let r0 : Resultados5C := {}
  if H_m ≤ 0 ∨ peso ≤ 0 then
    { r0 with error := some "Peso o Talla deben ser mayores a 0." }
  else
    let suma_4_pliegues := pliegues.tricipital + pliegues.subescapular +
      pliegues.bicipital + pliegues.suprailiaco
    if suma_4_pliegues ≤ 0 then
      { r0 with error := some "Pliegues para DC (Durnin) no ingresados." }
    else
      let log_suma := Real.logb 10 suma_4_pliegues
      let DC := densidad_durnin_sin_edad sexo log_suma
      if DC ≤ 0 then
        { r0 with error := some "Error en cálculo de Densidad Corporal." }
      else
        let porc_grasa_siri := calcular_porcentaje_grasa_siri DC
        let masa_grasa := porc_grasa_siri / 100 * peso
        let r1 := { r0 with
          dc := DC
          mg_kg := masa_grasa
          mg_porc := porc_grasa_siri
          mg_diag := obtener_diagnostico_5c "MG" porc_grasa_siri sexo }
        if diams.muneca ≤ 0 ∨ diams.femur ≤ 0 then
          { r1 with error := some "Diámetros de Muñeca y Fémur (Rocha) no ingresados." }
        else
          let termino_base := H_m ^ 2 * (diams.muneca / 100) * (diams.femur / 100) * 400
          if termino_base ≤ 0 then
            { r1 with error := some "Error en cálculo de MO (base negativa)." }
          else
            let masa_osea := 3.02 * termino_base ^ (0.712 : ℝ)
            let porc_oseo := masa_osea / peso * 100
            let r2 := { r1 with
              mo_kg := masa_osea
              mo_porc := porc_oseo
              mo_diag := obtener_diagnostico_5c "MO" porc_oseo sexo }
            let porc_residual : ℝ := if sexo = "Masculino" then 24 else 21
            let masa_residual := porc_residual / 100 * peso
            let r3 := { r2 with
              mr_kg := masa_residual
              mr_porc := porc_residual
              mr_diag := obtener_diagnostico_5c "MR" porc_residual sexo }
            let porc_piel : ℝ := 3.5
            let masa_piel := porc_piel / 100 * peso
            let r4 := { r3 with
              mp_kg := masa_piel
              mp_porc := porc_piel
              mp_diag := obtener_diagnostico_5c "MP" porc_piel sexo }
            let suma_componentes_fijos := masa_grasa + masa_osea + masa_residual + masa_piel
            let masa_muscular0 := peso - suma_componentes_fijos
            let masa_muscular := if masa_muscular0 < 0 then 0 else masa_muscular0
            let err := if masa_muscular0 < 0 then
                some "La suma de MG, MO, MR y MP supera el peso total. Revise las mediciones."
              else r4.error
            let porc_muscular := masa_muscular / peso * 100
            { r4 with
              mm_kg := masa_muscular
              mm_porc := porc_muscular
              mm_diag := obtener_diagnostico_5c "MM" porc_muscular sexo
              error := err
              suma_total := suma_componentes_fijos + masa_muscular }

/-- Python `round(x, 1)`: round to one decimal place.  Modelled with
Mathlib's `round` (which rounds half up, while Python rounds half to even;
the two agree off exact midpoints, and no claim depends on a midpoint). -/
noncomputable def round_1 (x : ℝ) : ℝ := (round (x * 10) : ℤ) / 10

/-- Embedding of `calcular_somatotipo` (src/app.py lines 611-667): the
Heath-Carter somatotype components (endo, meso, ecto), each rounded to one
decimal.  `peso ** (1/3)` is modelled by `Real.rpow` (the Python power is
only evaluated on the `peso > 0` branch). -/
noncomputable def calcular_somatotipo (peso talla_cm : ℝ) (pliegues : Pliegues)
    (circs : Circs) (diams : Diams) : ℝ × ℝ × ℝ :=
  let talla_m := talla_cm / 100
  if talla_m = 0 ∨ peso = 0 then (0, 0, 0)
  else
    let triceps := pliegues.tricipital
    let subescapular := pliegues.subescapular
    let suprailiaco := pliegues.suprailiaco
    let pantorrilla := pliegues.pantorrilla_medial
    let humero_diam := diams.humero
    let femur_diam := diams.femur
    let brazo_circ := circs.brazo_relajado
    let pantorrilla_circ := circs.pantorrilla_maxima
    let X : ℝ :=
      if talla_cm = 0 then 0
      else (triceps + subescapular + suprailiaco) * (170.18 / talla_cm)
    let endo : ℝ :=
      if X ≤ 0 then 0
      else
        let e := -0.7182 + 0.1451 * X - 0.00068 * X ^ 2 + 0.0000014 * X ^ 3
        if e < 0.1 then 0.1 else e
    let brazo_circ_corr := brazo_circ - triceps / 10
    let pantorrilla_circ_corr := pantorrilla_circ - pantorrilla / 10
    let meso : ℝ :=
      if humero_diam ≤ 0 ∨ femur_diam ≤ 0 ∨ brazo_circ_corr ≤ 0 ∨
          pantorrilla_circ_corr ≤ 0 ∨ talla_cm ≤ 0 then 0
      else
        let m := 0.858 * humero_diam + 0.601 * femur_diam + 0.188 * brazo_circ_corr +
          0.161 * pantorrilla_circ_corr - 0.131 * talla_cm + 4.5
        if m < 0.1 then 0.1 else m
    let ecto : ℝ :=
      if peso ≤ 0 then 0.1
      else
        let HWR := talla_cm / peso ^ ((1 : ℝ) / 3)
        if HWR > 40.75 then 0.732 * HWR - 28.58
        else if HWR > 38.25 then 0.463 * HWR - 17.63
        else 0.1
    (round_1 endo, round_1 meso, round_1 ecto)

/-- Stable insertion of a labelled value into a descending-sorted list:
the element is placed before the first entry it is greater than or equal
to.  Together with `sort_desc` this reproduces the semantics of Python's
stable `sorted(..., key=value, reverse=True)` on labelled values. -/
noncomputable def insert_desc (x : String × ℝ) : List (String × ℝ) → List (String × ℝ)
  | [] => [x]
  | y :: ys => if y.2 ≤ x.2 then x :: y :: ys else y :: insert_desc x ys

/-- Stable descending sort by value (Python `sorted(items, key=value,
reverse=True)`): equal values keep their original relative order. -/
noncomputable def sort_desc (l : List (String × ℝ)) : List (String × ℝ) := l.foldr insert_desc []

/-- Embedding of `clasificar_somatotipo` (src/app.py lines 670-691):
diagnostic category from the three somatotype components. -/
noncomputable def clasificar_somatotipo (endo meso ecto : ℝ) : String :=
  let componentes := [("Endomorfo", endo), ("Mesomorfo", meso), ("Ectomorfo", ecto)]
  let ordenados := sort_desc componentes
  match ordenados with
  | (d1_nombre, d1_val) :: (d2_nombre, d2_val) :: (_, d3_val) :: _ =>
    if d1_val - d2_val < 1.0 then
      if d2_val - d3_val < 1.0 then "Central"
      else d1_nombre ++ "-" ++ d2_nombre
    else
      if d2_val - d3_val < 1.0 then d1_nombre ++ " balanceado"
      else d1_nombre ++ " (dominante)"
  | _ => "N/A"

/-- Two-level tie-break rule of the spec, applied to three already sorted
labelled components (first, second, third in descending order). -/
noncomputable def regla_clasificacion (n1 : String) (v1 : ℝ) (n2 : String) (v2 : ℝ) (v3 : ℝ) : String :=
  if v1 - v2 < 1.0 then
    if v2 - v3 < 1.0 then "Central" else n1 ++ "-" ++ n2
  else
    if v2 - v3 < 1.0 then n1 ++ " balanceado" else n1 ++ " (dominante)"

/-- Somatotype classification as the spec words it: sort the three
components descending (ties keep the order endo, meso, ecto) and apply the
two-level tie-break rule.  The descending order is spelled out by explicit
case analysis rather than by a sort routine. -/
noncomputable def clasificar_somatotipo_spec (endo meso ecto : ℝ) : String :=
  if meso ≤ endo then
    if ecto ≤ meso then regla_clasificacion "Endomorfo" endo "Mesomorfo" meso ecto
    else if ecto ≤ endo then regla_clasificacion "Endomorfo" endo "Ectomorfo" ecto meso
    else regla_clasificacion "Ectomorfo" ecto "Endomorfo" endo meso
  else
    if meso < ecto then regla_clasificacion "Ectomorfo" ecto "Mesomorfo" meso endo
    else if endo < ecto then regla_clasificacion "Mesomorfo" meso "Ectomorfo" ecto endo
    else regla_clasificacion "Mesomorfo" meso "Endomorfo" endo ecto

/-- Concrete skinfold set used by witnesses: the four Durnin sites sum to
10, so the `log10` of their sum is exactly 1. -/
def pliegues_diez : Pliegues :=
  { tricipital := 1, bicipital := 2, subescapular := 3, suprailiaco := 4 }

/-- Concrete diameter set used by witnesses: with height 100 cm the Rocha
base term is exactly 1. -/
def diams_uno : Diams := { muneca := 10, femur := 2.5 }

/-- Spec-side predicate for C5: the six alternative regressions and the
sex each one is compatible with. -/
def formula_sexo_compatible (formula_nombre sexo : String) : Prop :=
  (formula_nombre = "Sloan (1967) - Varones" ∧ sexo = "Masculino") ∨
  (formula_nombre = "Wilmore & Behnke (1969) - Varones" ∧ sexo = "Masculino") ∨
  (formula_nombre = "Katch & McArdle (1973) - Varones" ∧ sexo = "Masculino") ∨
  (formula_nombre = "Sloan, Burt, & Blyth (1962) - Mujeres" ∧ sexo = "Femenino") ∨
  (formula_nombre = "Wilmore & Behnke (1970) - Mujeres" ∧ sexo = "Femenino") ∨
  (formula_nombre = "Jackson, Pollock, & Ward (1980) - Mujeres" ∧ sexo = "Femenino")

/-- Spec-side predicate for C5: some skinfold site required by the chosen
formula was left at 0. -/
def faltan_pliegues_requeridos (formula_nombre : String) (p : Pliegues) : Prop :=
  (formula_nombre = "Sloan (1967) - Varones" ∧
    (p.muslo_frontal = 0 ∨ p.subescapular = 0)) ∨
  (formula_nombre = "Wilmore & Behnke (1969) - Varones" ∧
    (p.abdominal = 0 ∨ p.muslo_frontal = 0)) ∨
  (formula_nombre = "Katch & McArdle (1973) - Varones" ∧
    (p.tricipital = 0 ∨ p.subescapular = 0 ∨ p.abdominal = 0)) ∨
  (formula_nombre = "Sloan, Burt, & Blyth (1962) - Mujeres" ∧
    (p.suprailiaco = 0 ∨ p.tricipital = 0)) ∨
  (formula_nombre = "Wilmore & Behnke (1970) - Mujeres" ∧
    (p.subescapular = 0 ∨ p.tricipital = 0 ∨ p.muslo_frontal = 0)) ∨
  (formula_nombre = "Jackson, Pollock, & Ward (1980) - Mujeres" ∧
    (p.tricipital = 0 ∨ p.muslo_frontal = 0 ∨ p.suprailiaco = 0))

/-- Spec-side helper for C5: the density each alternative regression
computes (0 for an unknown formula name, where it is never consulted). -/
noncomputable def dc_de_formula (formula_nombre : String) (edad : ℝ) (p : Pliegues) : ℝ :=
  if formula_nombre = "Sloan (1967) - Varones" then
    1.1043 - 0.001327 * p.muslo_frontal - 0.001310 * p.subescapular
  else if formula_nombre = "Wilmore & Behnke (1969) - Varones" then
    1.08543 - 0.000886 * p.abdominal - 0.00040 * p.muslo_frontal
  else if formula_nombre = "Katch & McArdle (1973) - Varones" then
    1.09655 - 0.00049 - 0.00103 * p.tricipital - 0.00056 * p.subescapular +
      0.00054 * p.abdominal
  else if formula_nombre = "Sloan, Burt, & Blyth (1962) - Mujeres" then
    1.0764 - 0.00081 * p.suprailiaco - 0.00088 * p.tricipital
  else if formula_nombre = "Wilmore & Behnke (1970) - Mujeres" then
    1.06234 - 0.00068 * p.subescapular - 0.00039 * p.tricipital -
      0.00025 * p.muslo_frontal
  else if formula_nombre = "Jackson, Pollock, & Ward (1980) - Mujeres" then
    1.221389 - 0.04057 * Real.logb 10 (p.tricipital + p.muslo_frontal + p.suprailiaco) -
      0.00016 * edad
  else 0

/-- The skinfold set of the spec's end-to-end example scenario:
Tricipital 10, Bicipital 5, Subescapular 12, Suprailíaco 8 (sum 35). -/
def pliegues_caso : Pliegues :=
  { tricipital := 10, bicipital := 5, subescapular := 12, suprailiaco := 8 }

/-! ### Helper lemmas -/

lemma siri_of_pos {d : ℝ} (hd : 0 < d) :
    calcular_porcentaje_grasa_siri d = min 60 (max 0 ((4.95 / d - 4.5) * 100)) := by
  unfold calcular_porcentaje_grasa_siri
  rw [if_neg (not_le.mpr hd)]
  dsimp only
  split_ifs <;> rw [max_def, min_def] <;> split_ifs <;> linarith

lemma siri_bounds (d : ℝ) :
    0 ≤ calcular_porcentaje_grasa_siri d ∧ calcular_porcentaje_grasa_siri d ≤ 60 := by
  unfold calcular_porcentaje_grasa_siri
  dsimp only
  split_ifs <;> constructor <;> linarith

/-! ### Claims -/

/-- Claim C3: the Siri fat-percent function returns 0 for density ≤ 0;
for density > 0 it returns the raw Siri value clamped to [0, 60], so a raw
value above 60 yields exactly 60; and it is monotonically decreasing
(antitone) over positive densities. -/
theorem siri_spec :
    (∀ d : ℝ, d ≤ 0 → calcular_porcentaje_grasa_siri d = 0) ∧
    (∀ d : ℝ, 0 < d →
      calcular_porcentaje_grasa_siri d = min 60 (max 0 ((4.95 / d - 4.5) * 100))) ∧
    (∀ d : ℝ, 0 < d → 60 < (4.95 / d - 4.5) * 100 →
      calcular_porcentaje_grasa_siri d = 60) ∧
    (∀ d₁ d₂ : ℝ, 0 < d₁ → d₁ ≤ d₂ →
      calcular_porcentaje_grasa_siri d₂ ≤ calcular_porcentaje_grasa_siri d₁) := by
  refine ⟨fun d hd => ?_, fun d hd => siri_of_pos hd, fun d hd hraw => ?_, ?_⟩
  · unfold calcular_porcentaje_grasa_siri
    rw [if_pos hd]
  · rw [siri_of_pos hd, max_eq_right (by linarith), min_eq_left (by linarith)]
  · intro d₁ d₂ h1 h12
    have h2 : 0 < d₂ := lt_of_lt_of_le h1 h12
    rw [siri_of_pos h1, siri_of_pos h2]
    have hdiv : 4.95 / d₂ ≤ 4.95 / d₁ := by gcongr
    exact min_le_min le_rfl (max_le_max le_rfl (by linarith))

/-- Witness for C3 at concrete densities. -/
theorem siri_spec_witness :
    calcular_porcentaje_grasa_siri (-1) = 0 ∧
    calcular_porcentaje_grasa_siri 1 = 45 ∧
    calcular_porcentaje_grasa_siri 0.05 = 60 ∧
    calcular_porcentaje_grasa_siri 2 ≤ calcular_porcentaje_grasa_siri 1 := by
  refine ⟨siri_spec.1 (-1) (by norm_num), ?_, ?_, siri_spec.2.2.2 1 2 (by norm_num) (by norm_num)⟩
  · rw [siri_spec.2.1 1 (by norm_num)]
    norm_num
  · rw [siri_spec.2.2.1 0.05 (by norm_num) (by norm_num)]

/-- Claim C8: the BMI calculator returns (0, "Sin datos") when either
input is 0; for positive inputs it returns weight/(height in m)² with the
label bands <18.5 "Bajo Peso", [18.5, 25) "Peso Normal", [25, 30)
"Sobrepeso", ≥30 "Obesidad"; the boundary 18.5 is labelled "Peso Normal". -/
theorem calcular_imc_spec (peso talla_cm : ℚ) :
    ((peso = 0 ∨ talla_cm = 0) → calcular_imc peso talla_cm = (0, "Sin datos")) ∧
    (0 < peso → 0 < talla_cm →
      (calcular_imc peso talla_cm).1 = peso / (talla_cm / 100) ^ 2 ∧
      ((calcular_imc peso talla_cm).1 < 18.5 →
        (calcular_imc peso talla_cm).2 = "Bajo Peso") ∧
      (18.5 ≤ (calcular_imc peso talla_cm).1 → (calcular_imc peso talla_cm).1 < 25 →
        (calcular_imc peso talla_cm).2 = "Peso Normal") ∧
      (25 ≤ (calcular_imc peso talla_cm).1 → (calcular_imc peso talla_cm).1 < 30 →
        (calcular_imc peso talla_cm).2 = "Sobrepeso") ∧
      (30 ≤ (calcular_imc peso talla_cm).1 →
        (calcular_imc peso talla_cm).2 = "Obesidad") ∧
      ((calcular_imc peso talla_cm).1 = 18.5 →
        (calcular_imc peso talla_cm).2 = "Peso Normal")) := by
  constructor
  · rintro (h | h) <;> simp [calcular_imc, h]
  · intro hp ht
    have hcond : ¬(talla_cm = 0 ∨ peso = 0) := by
      push_neg
      exact ⟨ne_of_gt ht, ne_of_gt hp⟩
    unfold calcular_imc
    rw [if_neg hcond]
    dsimp only
    refine ⟨rfl, ?_, ?_, ?_, ?_, ?_⟩ <;> intros <;> split_ifs <;>
      first
        | rfl
        | (exfalso; simp only [not_and_or, not_lt, not_le] at *; linarith)
        | (exfalso; simp only [not_and_or, not_lt, not_le] at *; casesm* _ ∨ _ <;> linarith)

/-- Witness for C8: BMI exactly 18.5 is labelled "Peso Normal". -/
theorem calcular_imc_spec_witness :
    (0:ℚ) < 18.5 ∧ (0:ℚ) < 100 ∧ calcular_imc 18.5 100 = (18.5, "Peso Normal") := by
  refine ⟨by norm_num, by norm_num, ?_⟩
  have h := (calcular_imc_spec 18.5 100).2 (by norm_num) (by norm_num)
  have h1 : (calcular_imc 18.5 100).1 = 18.5 := by
    rw [h.1]
    norm_num
  have h2 := h.2.2.2.2.2 h1
  rw [Prod.ext_iff]
  exact ⟨h1, h2⟩

/-- Claim C10: for any formula name other than the three supported ones,
`calcular_get` silently falls back to the Mifflin-St Jeor computation
(same value as requesting "Mifflin-St Jeor" explicitly). -/
theorem calcular_get_fallback (sexo : String) (peso talla_cm edad : ℚ)
    (actividad formula : String) (masa_magra : ℚ)
    (h1 : formula ≠ "Mifflin-St Jeor") (h2 : formula ≠ "Harris-Benedict")
    (h3 : formula ≠ "Cunningham") (hp : peso ≠ 0) (ht : talla_cm ≠ 0) (he : edad ≠ 0) :
    calcular_get sexo peso talla_cm edad actividad formula masa_magra =
      calcular_get sexo peso talla_cm edad actividad "Mifflin-St Jeor" masa_magra := by
  simp [calcular_get, h1, h2, h3, hp, ht, he]

/-- Witness for C10: an unknown formula name gives the Mifflin value. -/
theorem calcular_get_fallback_witness :
    ("Foo" : String) ≠ "Mifflin-St Jeor" ∧
    calcular_get "Masculino" 70 170 25 "Moderada" "Foo" 0 =
      calcular_get "Masculino" 70 170 25 "Moderada" "Mifflin-St Jeor" 0 ∧
    calcular_get "Masculino" 70 170 25 "Moderada" "Mifflin-St Jeor" 0 = 2545.875 := by
  refine ⟨by decide, calcular_get_fallback "Masculino" 70 170 25 "Moderada" "Foo" 0
    (by decide) (by decide) (by decide) (by norm_num) (by norm_num) (by norm_num), ?_⟩
  simp only [calcular_get, String.reduceEq, reduceIte]
  norm_num

lemma comp2c_eval (peso : ℝ) (sexo : String) (edad : ℝ) (pliegues : Pliegues)
    (hs : 0 < pliegues.bicipital + pliegues.tricipital +
      pliegues.subescapular + pliegues.suprailiaco)
    (hd : 0 < get_densidad_durnin sexo edad (Real.logb 10 (pliegues.bicipital +
      pliegues.tricipital + pliegues.subescapular + pliegues.suprailiaco))) :
    calcular_composicion_2c_durnin_siri peso sexo edad pliegues =
      { masa_grasa := peso * (calcular_porcentaje_grasa_siri (get_densidad_durnin sexo edad
          (Real.logb 10 (pliegues.bicipital + pliegues.tricipital +
            pliegues.subescapular + pliegues.suprailiaco))) / 100)
        masa_magra := peso - peso * (calcular_porcentaje_grasa_siri (get_densidad_durnin sexo edad
          (Real.logb 10 (pliegues.bicipital + pliegues.tricipital +
            pliegues.subescapular + pliegues.suprailiaco))) / 100)
        porc_grasa := calcular_porcentaje_grasa_siri (get_densidad_durnin sexo edad
          (Real.logb 10 (pliegues.bicipital + pliegues.tricipital +
            pliegues.subescapular + pliegues.suprailiaco)))
        diag_grasa :=
          let porc := calcular_porcentaje_grasa_siri (get_densidad_durnin sexo edad
            (Real.logb 10 (pliegues.bicipital + pliegues.tricipital +
              pliegues.subescapular + pliegues.suprailiaco)))
          if porc < 10 then "Nivel de grasa muy bajo"
          else if 10 ≤ porc ∧ porc < 20 then "Nivel de grasa saludable (Atleta)"
          else if 20 ≤ porc ∧ porc < 30 then "Nivel de grasa saludable (Promedio)"
          else if 30 ≤ porc ∧ porc < 40 then "Nivel de grasa elevado (Sobrepeso)"
          else "Nivel de grasa muy elevado (Obesidad)" } := by
  unfold calcular_composicion_2c_durnin_siri
  dsimp only
  rw [if_neg (not_le.mpr hs), if_neg (by rintro ⟨-, h⟩; exact absurd hd (not_lt.mpr h))]

/-- Claim C4: for positive skinfold sum and positive resulting density,
the two-compartment model returns fat mass = weight × percent/100, lean
mass = weight − fat mass, and the two masses sum exactly to the weight. -/
theorem comp2c_masa_conservada (peso : ℝ) (sexo : String) (edad : ℝ) (pliegues : Pliegues)
    (hs : 0 < pliegues.bicipital + pliegues.tricipital +
      pliegues.subescapular + pliegues.suprailiaco)
    (hd : 0 < get_densidad_durnin sexo edad (Real.logb 10 (pliegues.bicipital +
      pliegues.tricipital + pliegues.subescapular + pliegues.suprailiaco))) :
    (calcular_composicion_2c_durnin_siri peso sexo edad pliegues).masa_grasa =
      peso * ((calcular_composicion_2c_durnin_siri peso sexo edad pliegues).porc_grasa / 100) ∧
    (calcular_composicion_2c_durnin_siri peso sexo edad pliegues).masa_magra =
      peso - (calcular_composicion_2c_durnin_siri peso sexo edad pliegues).masa_grasa ∧
    (calcular_composicion_2c_durnin_siri peso sexo edad pliegues).masa_grasa +
      (calcular_composicion_2c_durnin_siri peso sexo edad pliegues).masa_magra = peso := by
  rw [comp2c_eval peso sexo edad pliegues hs hd]
  refine ⟨rfl, rfl, by ring⟩

/-- Witness for C4: skinfolds summing to 10 (so `log10 = 1`) for a
25-year-old male give density 1.0999 > 0 and conserved mass. -/
theorem comp2c_masa_conservada_witness :
    (0:ℝ) < 1 + 2 + 3 + 4 ∧
    (calcular_composicion_2c_durnin_siri 70 "Masculino" 25
        { tricipital := 2, bicipital := 1, subescapular := 3, suprailiaco := 4 }).masa_grasa +
      (calcular_composicion_2c_durnin_siri 70 "Masculino" 25
        { tricipital := 2, bicipital := 1, subescapular := 3, suprailiaco := 4 }).masa_magra =
      70 := by
  have hs : (0:ℝ) < (1:ℝ) + 2 + 3 + 4 := by norm_num
  have hL : Real.logb 10 ((1:ℝ) + 2 + 3 + 4) = 1 := by
    have h10 : ((1:ℝ) + 2 + 3 + 4) = 10 := by norm_num
    rw [h10]
    exact Real.logb_self_eq_one (by norm_num)
  have hd : (0:ℝ) < get_densidad_durnin "Masculino" 25 (Real.logb 10 ((1:ℝ) + 2 + 3 + 4)) := by
    rw [hL]
    unfold get_densidad_durnin
    norm_num
  exact ⟨hs, (comp2c_masa_conservada 70 "Masculino" 25
    { tricipital := 2, bicipital := 1, subescapular := 3, suprailiaco := 4 } hs hd).2.2⟩

/-- Claim C9: under the same validity hypotheses and positive weight, the
two-compartment fat percent lies in [0, 60], hence fat mass in
[0, 0.6·weight] and lean mass in [0.4·weight, weight]: the Siri clamp
makes a negative lean mass impossible. -/
theorem comp2c_cotas (peso : ℝ) (sexo : String) (edad : ℝ) (pliegues : Pliegues)
    (hp : 0 < peso)
    (hs : 0 < pliegues.bicipital + pliegues.tricipital +
      pliegues.subescapular + pliegues.suprailiaco)
    (hd : 0 < get_densidad_durnin sexo edad (Real.logb 10 (pliegues.bicipital +
      pliegues.tricipital + pliegues.subescapular + pliegues.suprailiaco))) :
    0 ≤ (calcular_composicion_2c_durnin_siri peso sexo edad pliegues).porc_grasa ∧
    (calcular_composicion_2c_durnin_siri peso sexo edad pliegues).porc_grasa ≤ 60 ∧
    0 ≤ (calcular_composicion_2c_durnin_siri peso sexo edad pliegues).masa_grasa ∧
    (calcular_composicion_2c_durnin_siri peso sexo edad pliegues).masa_grasa ≤ 0.6 * peso ∧
    0.4 * peso ≤ (calcular_composicion_2c_durnin_siri peso sexo edad pliegues).masa_magra ∧
    (calcular_composicion_2c_durnin_siri peso sexo edad pliegues).masa_magra ≤ peso := by
  rw [comp2c_eval peso sexo edad pliegues hs hd]
  obtain ⟨h0, h60⟩ := siri_bounds (get_densidad_durnin sexo edad
    (Real.logb 10 (pliegues.bicipital + pliegues.tricipital +
      pliegues.subescapular + pliegues.suprailiaco)))
  refine ⟨h0, h60, ?_, ?_, ?_, ?_⟩ <;> dsimp only <;> nlinarith

/-- Witness for C9 at the same concrete male subject. -/
theorem comp2c_cotas_witness :
    (0:ℝ) < 70 ∧
    0.4 * 70 ≤ (calcular_composicion_2c_durnin_siri 70 "Masculino" 25
      { tricipital := 2, bicipital := 1, subescapular := 3, suprailiaco := 4 }).masa_magra := by
  have hs : (0:ℝ) < (1:ℝ) + 2 + 3 + 4 := by norm_num
  have hL : Real.logb 10 ((1:ℝ) + 2 + 3 + 4) = 1 := by
    have h10 : ((1:ℝ) + 2 + 3 + 4) = 10 := by norm_num
    rw [h10]
    exact Real.logb_self_eq_one (by norm_num)
  have hd : (0:ℝ) < get_densidad_durnin "Masculino" 25 (Real.logb 10 ((1:ℝ) + 2 + 3 + 4)) := by
    rw [hL]
    unfold get_densidad_durnin
    norm_num
  exact ⟨by norm_num, (comp2c_cotas 70 "Masculino" 25
    { tricipital := 2, bicipital := 1, subescapular := 3, suprailiaco := 4 }
    (by norm_num) hs hd).2.2.2.2.1⟩

/-- Claim C6: the somatotype classifier agrees everywhere with the spec's
two-level tie-break rule on the descending-sorted components, and the
three quoted examples evaluate as stated. -/
theorem clasificar_somatotipo_spec_ok :
    (∀ endo meso ecto : ℝ, clasificar_somatotipo endo meso ecto =
      clasificar_somatotipo_spec endo meso ecto) ∧
    clasificar_somatotipo 5 3 1 = "Endomorfo (dominante)" ∧
    clasificar_somatotipo 4 4 3 = "Endomorfo-Mesomorfo" ∧
    clasificar_somatotipo 3 3 3 = "Central" := by
  have h : ∀ endo meso ecto : ℝ, clasificar_somatotipo endo meso ecto =
      clasificar_somatotipo_spec endo meso ecto := by
    intro endo meso ecto
    unfold clasificar_somatotipo clasificar_somatotipo_spec
    simp only [sort_desc, List.foldr, insert_desc]
    split_ifs
    all_goals simp only [insert_desc]
    all_goals (try split_ifs)
    all_goals (first | rfl | (exfalso; linarith))
  refine ⟨h, ?_, ?_, ?_⟩ <;> rw [h] <;> unfold clasificar_somatotipo_spec regla_clasificacion <;>
    norm_num <;> decide

/-- Claim C2: when all stage checks of the 5-compartment model pass, the
components sum exactly back to the weight and no error is set whenever
fat+bone+residual+skin ≤ weight; when that sum exceeds the weight, the
muscle mass is clamped to exactly 0, the error field is set to the
overweight message, and the populated result (with the clamped value) is
still returned. -/
theorem comp5c_suma_y_clamp (peso talla_cm : ℝ) (sexo : String)
    (pliegues : Pliegues) (diams : Diams) (r : Resultados5C)
    (hr : r = calcular_composicion_5c_kerr peso talla_cm sexo pliegues diams)
    (hp : 0 < peso) (ht : 0 < talla_cm)
    (hs : 0 < pliegues.tricipital + pliegues.subescapular +
      pliegues.bicipital + pliegues.suprailiaco)
    (hdc : 0 < densidad_durnin_sin_edad sexo (Real.logb 10 (pliegues.tricipital +
      pliegues.subescapular + pliegues.bicipital + pliegues.suprailiaco)))
    (hm : 0 < diams.muneca) (hf : 0 < diams.femur) :
    (r.mg_kg + r.mo_kg + r.mr_kg + r.mp_kg ≤ peso →
      r.suma_total = peso ∧ r.error = none) ∧
    (peso < r.mg_kg + r.mo_kg + r.mr_kg + r.mp_kg →
      r.mm_kg = 0 ∧
      r.error = some "La suma de MG, MO, MR y MP supera el peso total. Revise las mediciones." ∧
      r.suma_total = r.mg_kg + r.mo_kg + r.mr_kg + r.mp_kg) := by
  subst hr
  unfold calcular_composicion_5c_kerr
  dsimp only
  rw [if_neg (by push_neg; exact ⟨by positivity, hp⟩),
    if_neg (not_le.mpr hs), if_neg (not_le.mpr hdc),
    if_neg (by push_neg; exact ⟨hm, hf⟩),
    if_neg (not_le.mpr (by positivity))]
  by_cases hsx : sexo = "Masculino" <;>
    simp only [hsx, ite_true, ite_false, String.reduceEq, reduceIte] <;>
    split_ifs with hneg <;>
    refine ⟨fun hle => ?_, fun hlt => ?_⟩ <;>
    first
      | (exfalso; linarith)
      | (exact ⟨by linarith, rfl⟩)
      | (refine ⟨rfl, rfl, ?_⟩; linarith)

/-- Witness for C2: male, weight 70 kg, height 100 cm, skinfolds summing
to 10 and diameters chosen so the bone term is exactly 1. -/
theorem comp5c_suma_y_clamp_witness :
    (0:ℝ) < 70 ∧ (0:ℝ) < 100 ∧
    ((calcular_composicion_5c_kerr 70 100 "Masculino" pliegues_diez diams_uno).mg_kg +
      (calcular_composicion_5c_kerr 70 100 "Masculino" pliegues_diez diams_uno).mo_kg +
      (calcular_composicion_5c_kerr 70 100 "Masculino" pliegues_diez diams_uno).mr_kg +
      (calcular_composicion_5c_kerr 70 100 "Masculino" pliegues_diez diams_uno).mp_kg ≤ 70 →
      (calcular_composicion_5c_kerr 70 100 "Masculino" pliegues_diez diams_uno).suma_total = 70 ∧
      (calcular_composicion_5c_kerr 70 100 "Masculino" pliegues_diez diams_uno).error = none) := by
  have hL : Real.logb 10 (pliegues_diez.tricipital + pliegues_diez.subescapular +
      pliegues_diez.bicipital + pliegues_diez.suprailiaco) = 1 := by
    have h10 : pliegues_diez.tricipital + pliegues_diez.subescapular +
        pliegues_diez.bicipital + pliegues_diez.suprailiaco = 10 := by
      norm_num [pliegues_diez]
    rw [h10]
    exact Real.logb_self_eq_one (by norm_num)
  have hdc : (0:ℝ) < densidad_durnin_sin_edad "Masculino"
      (Real.logb 10 (pliegues_diez.tricipital + pliegues_diez.subescapular +
        pliegues_diez.bicipital + pliegues_diez.suprailiaco)) := by
    rw [hL]
    unfold densidad_durnin_sin_edad
    norm_num
  exact ⟨by norm_num, by norm_num,
    (comp5c_suma_y_clamp 70 100 "Masculino" pliegues_diez diams_uno _ rfl
      (by norm_num) (by norm_num) (by norm_num [pliegues_diez]) hdc
      (by norm_num [diams_uno]) (by norm_num [diams_uno])).1⟩

/-- Counterexample to C7 as stated: at weight 0 (height 170 cm) the
function takes its early return and the ectomorphy component is 0, not
0.1. -/
theorem calcular_somatotipo_ecto_cex :
    (calcular_somatotipo 0 170 {} {} {}).2.2 = 0 ∧
    (calcular_somatotipo 0 170 {} {} {}).2.2 ≠ 0.1 := by
  have h : calcular_somatotipo 0 170 {} {} {} = (0, 0, 0) := by
    unfold calcular_somatotipo
    dsimp only
    rw [if_pos (Or.inr rfl)]
  rw [h]
  norm_num

/-- Claim C7 (amended): when weight = 0 or height = 0 the whole result is
(0, 0, 0); for weight < 0 with nonzero height the ectomorphy component is
0.1; for weight > 0 with nonzero height it is the rounded Heath-Carter
height-weight-ratio band formula. -/
theorem calcular_somatotipo_ecto (peso talla_cm : ℝ) (pliegues : Pliegues)
    (circs : Circs) (diams : Diams) :
    (peso = 0 ∨ talla_cm = 0 →
      calcular_somatotipo peso talla_cm pliegues circs diams = (0, 0, 0)) ∧
    (peso < 0 → talla_cm ≠ 0 →
      (calcular_somatotipo peso talla_cm pliegues circs diams).2.2 = 0.1) ∧
    (0 < peso → talla_cm ≠ 0 →
      (calcular_somatotipo peso talla_cm pliegues circs diams).2.2 =
        round_1 (if talla_cm / peso ^ ((1:ℝ)/3) > 40.75 then
            0.732 * (talla_cm / peso ^ ((1:ℝ)/3)) - 28.58
          else if talla_cm / peso ^ ((1:ℝ)/3) > 38.25 then
            0.463 * (talla_cm / peso ^ ((1:ℝ)/3)) - 17.63
          else 0.1)) := by
  refine ⟨fun h => ?_, fun hp ht => ?_, fun hp ht => ?_⟩
  · unfold calcular_somatotipo
    dsimp only
    rw [if_pos ?_]
    rcases h with h | h
    · exact Or.inr h
    · exact Or.inl (by rw [h]; norm_num)
  · unfold calcular_somatotipo
    dsimp only
    rw [if_neg (by push_neg; exact ⟨div_ne_zero ht (by norm_num), ne_of_lt hp⟩)]
    dsimp only
    rw [if_pos (le_of_lt hp)]
    unfold round_1
    norm_num
  · unfold calcular_somatotipo
    dsimp only
    rw [if_neg (by push_neg; exact ⟨div_ne_zero ht (by norm_num), ne_of_gt hp⟩)]
    dsimp only
    rw [if_neg (not_le.mpr hp)]

/-- Witness for C7: weight 8 kg (cube root exactly 2), height 170 cm, so
HWR = 85 > 40.75 and the ectomorphy is round(0.732·85 − 28.58, 1) = 33.6. -/
theorem calcular_somatotipo_ecto_witness :
    (0:ℝ) < 8 ∧ (170:ℝ) ≠ 0 ∧ (calcular_somatotipo 8 170 {} {} {}).2.2 = 33.6 := by
  refine ⟨by norm_num, by norm_num, ?_⟩
  have h := (calcular_somatotipo_ecto 8 170 {} {} {}).2.2 (by norm_num) (by norm_num)
  have hcbrt : (8:ℝ) ^ ((1:ℝ)/3) = 2 := by
    rw [show (8:ℝ) = 2 ^ (3:ℕ) by norm_num,
      show (1:ℝ)/3 = (((3:ℕ):ℝ))⁻¹ by push_cast; norm_num]
    exact @Real.pow_rpow_inv_natCast 2 3 (by norm_num) (by norm_num)
  rw [h, hcbrt]
  rw [if_pos (by norm_num)]
  unfold round_1
  have hr : round ((0.732 * (170 / 2) - 28.58) * 10 : ℝ) = 336 := by
    rw [show (0.732 * (170 / 2) - 28.58) * 10 = (336.4:ℝ) by norm_num, round_eq]
    rw [show (336.4:ℝ) + 1/2 = 336.9 by norm_num]
    rw [Int.floor_eq_iff]
    constructor <;> push_cast <;> norm_num
  rw [hr]
  norm_num

set_option maxHeartbeats 1600000 in
/-- Claim C5 (amended): the alternative-formula calculator returns an
error (and no density result) exactly when the formula/sex gate fails
(unknown formula or wrong sex), a required skinfold site is 0, the
Jackson-Pollock-Ward 3-skinfold sum is nonpositive, or the computed
density is ≤ 0; the result side is `none` exactly when the error side is
set. -/
theorem personalizada_errores (formula_nombre sexo : String) (edad peso : ℝ)
    (p : Pliegues) :
    ((calcular_composicion_personalizada formula_nombre sexo edad peso p).2 ≠ none ↔
      (¬ formula_sexo_compatible formula_nombre sexo ∨
        faltan_pliegues_requeridos formula_nombre p ∨
        (formula_nombre = "Jackson, Pollock, & Ward (1980) - Mujeres" ∧
          p.tricipital + p.muslo_frontal + p.suprailiaco ≤ 0) ∨
        dc_de_formula formula_nombre edad p ≤ 0)) ∧
    ((calcular_composicion_personalizada formula_nombre sexo edad peso p).1 = none ↔
      (calcular_composicion_personalizada formula_nombre sexo edad peso p).2 ≠ none) := by
  unfold calcular_composicion_personalizada formula_sexo_compatible
    faltan_pliegues_requeridos dc_de_formula
  dsimp only
  split_ifs <;> dsimp only <;> (try split_ifs) <;>
    simp_all only [String.reduceEq, true_and, false_and, and_false, and_true,
      false_or, or_false, not_true, ne_eq, reduceCtorEq, not_false_eq_true,
      iff_true, iff_false, not_not] <;>
    tauto

/-- Counterexample to C5 as stated: for the male Sloan formula with a
matching male subject and both required sites nonzero (500 mm each), the
function still returns an error (density ≤ 0), so "error exactly when sex
mismatch or missing site" fails. -/
theorem personalizada_cex :
    formula_sexo_compatible "Sloan (1967) - Varones" "Masculino" ∧
    ¬ faltan_pliegues_requeridos "Sloan (1967) - Varones"
      { muslo_frontal := 500, subescapular := 500 } ∧
    (calcular_composicion_personalizada "Sloan (1967) - Varones" "Masculino" 25 70
      { muslo_frontal := 500, subescapular := 500 }).2 =
      some "Cálculo de Densidad inválido (<= 0)." ∧
    (calcular_composicion_personalizada "Sloan (1967) - Varones" "Masculino" 25 70
      { muslo_frontal := 500, subescapular := 500 }).1 = none := by
  have heval : calcular_composicion_personalizada "Sloan (1967) - Varones" "Masculino" 25 70
      { muslo_frontal := 500, subescapular := 500 } =
      (none, some "Cálculo de Densidad inválido (<= 0).") := by
    unfold calcular_composicion_personalizada
    dsimp only
    rw [if_pos ⟨rfl, rfl⟩, if_neg (by norm_num)]
    dsimp only
    rw [if_pos (by norm_num)]
  refine ⟨Or.inl ⟨rfl, rfl⟩, ?_, by rw [heval], by rw [heval]⟩
  unfold faltan_pliegues_requeridos
  simp only [String.reduceEq, false_and, false_or, or_false, true_and]
  norm_num

lemma logb_35_gt : (1.544 : ℝ) < Real.logb 10 35 := by
  rw [Real.lt_logb_iff_rpow_lt (by norm_num) (by norm_num)]
  have ha : (0:ℝ) ≤ (10:ℝ) ^ (1.544:ℝ) := Real.rpow_nonneg (by norm_num) _
  refine (pow_lt_pow_iff_left₀ ha (by norm_num) (by norm_num : (125:ℕ) ≠ 0)).mp ?_
  have h1 : ((10:ℝ) ^ (1.544:ℝ)) ^ (125:ℕ) = (10:ℝ) ^ (193:ℕ) := by
    rw [← Real.rpow_natCast ((10:ℝ) ^ (1.544:ℝ)) 125,
      ← Real.rpow_mul (by norm_num : (0:ℝ) ≤ 10),
      show (1.544:ℝ) * ((125:ℕ):ℝ) = ((193:ℕ):ℝ) by push_cast; norm_num,
      Real.rpow_natCast]
  rw [h1]
  norm_num

lemma logb_35_lt : Real.logb 10 35 < 1.545 := by
  rw [Real.logb_lt_iff_lt_rpow (by norm_num) (by norm_num)]
  have ha : (0:ℝ) ≤ (10:ℝ) ^ (1.545:ℝ) := Real.rpow_nonneg (by norm_num) _
  refine (pow_lt_pow_iff_left₀ (by norm_num : (0:ℝ) ≤ 35) ha
    (by norm_num : (200:ℕ) ≠ 0)).mp ?_
  have h1 : ((10:ℝ) ^ (1.545:ℝ)) ^ (200:ℕ) = (10:ℝ) ^ (309:ℕ) := by
    rw [← Real.rpow_natCast ((10:ℝ) ^ (1.545:ℝ)) 200,
      ← Real.rpow_mul (by norm_num : (0:ℝ) ≤ 10),
      show (1.545:ℝ) * ((200:ℕ):ℝ) = ((309:ℕ):ℝ) by push_cast; norm_num,
      Real.rpow_natCast]
  rw [h1]
  norm_num

lemma c1_caso_bounds :
    14.55 < (calcular_composicion_2c_durnin_siri 70 "Masculino" 25 pliegues_caso).porc_grasa ∧
    (calcular_composicion_2c_durnin_siri 70 "Masculino" 25 pliegues_caso).porc_grasa < 14.61 ∧
    (calcular_composicion_2c_durnin_siri 70 "Masculino" 25 pliegues_caso).masa_grasa =
      70 * ((calcular_composicion_2c_durnin_siri 70 "Masculino" 25 pliegues_caso).porc_grasa / 100) ∧
    (calcular_composicion_2c_durnin_siri 70 "Masculino" 25 pliegues_caso).masa_magra =
      70 - (calcular_composicion_2c_durnin_siri 70 "Masculino" 25 pliegues_caso).masa_grasa ∧
    (calcular_composicion_2c_durnin_siri 70 "Masculino" 25 pliegues_caso).diag_grasa =
      "Nivel de grasa saludable (Atleta)" := by
  have hsum : pliegues_caso.bicipital + pliegues_caso.tricipital +
      pliegues_caso.subescapular + pliegues_caso.suprailiaco = 35 := by
    norm_num [pliegues_caso]
  have hL1 := logb_35_gt
  have hL2 := logb_35_lt
  have hdens_eq : get_densidad_durnin "Masculino" 25 (Real.logb 10 35) =
      1.1631 - 0.0632 * Real.logb 10 35 := by
    unfold get_densidad_durnin
    rw [if_pos rfl, if_neg (by norm_num), if_neg (by norm_num), if_pos (by norm_num)]
  have hd1 : 1.06545 < get_densidad_durnin "Masculino" 25 (Real.logb 10 35) := by
    rw [hdens_eq]; linarith
  have hd2 : get_densidad_durnin "Masculino" 25 (Real.logb 10 35) < 1.06552 := by
    rw [hdens_eq]; linarith
  have hd0 : 0 < get_densidad_durnin "Masculino" 25 (Real.logb 10 35) := by linarith
  have hq1 : (4.6455:ℝ) < 4.95 / get_densidad_durnin "Masculino" 25 (Real.logb 10 35) := by
    rw [lt_div_iff₀ hd0]; nlinarith
  have hq2 : 4.95 / get_densidad_durnin "Masculino" 25 (Real.logb 10 35) < 4.6461 := by
    rw [div_lt_iff₀ hd0]; nlinarith
  have hsiri_eq : calcular_porcentaje_grasa_siri
      (get_densidad_durnin "Masculino" 25 (Real.logb 10 35)) =
      (4.95 / get_densidad_durnin "Masculino" 25 (Real.logb 10 35) - 4.5) * 100 := by
    rw [siri_of_pos hd0, max_eq_right (by linarith), min_eq_right (by linarith)]
  have hporc1 : 14.55 < calcular_porcentaje_grasa_siri
      (get_densidad_durnin "Masculino" 25 (Real.logb 10 35)) := by
    rw [hsiri_eq]; linarith
  have hporc2 : calcular_porcentaje_grasa_siri
      (get_densidad_durnin "Masculino" 25 (Real.logb 10 35)) < 14.61 := by
    rw [hsiri_eq]; linarith
  have heval := comp2c_eval 70 "Masculino" 25 pliegues_caso
    (by rw [hsum]; norm_num) (by rw [hsum]; exact hd0)
  rw [heval]
  dsimp only
  rw [hsum]
  refine ⟨hporc1, hporc2, rfl, rfl, ?_⟩
  rw [if_neg (by push_neg; linarith), if_pos ⟨by linarith, by linarith⟩]

/-- Counterexample to C1 as stated: with the example inputs the Siri
percent is below 14.61 (not ≈ 14.98), the fat mass below 10.23 kg (not
≈ 10.49), and the lean mass above 59.77 kg (not ≈ 59.51): each value is
more than 0.25 away from the figure the spec claims. -/
theorem c1_caso_cex :
    |(calcular_composicion_2c_durnin_siri 70 "Masculino" 25 pliegues_caso).porc_grasa
      - 14.98| > 0.25 ∧
    |(calcular_composicion_2c_durnin_siri 70 "Masculino" 25 pliegues_caso).masa_grasa
      - 10.49| > 0.25 ∧
    |(calcular_composicion_2c_durnin_siri 70 "Masculino" 25 pliegues_caso).masa_magra
      - 59.51| > 0.25 := by
  obtain ⟨h1, h2, hmg, hmm, -⟩ := c1_caso_bounds
  refine ⟨?_, ?_, ?_⟩
  · rw [abs_of_neg (by linarith)]
    linarith
  · rw [hmg, abs_of_neg (by linarith)]
    linarith
  · rw [hmm, hmg, abs_of_pos (by linarith)]
    linarith

/-- Claim C1 (amended): for a male aged 25, weight 70 kg, with skinfolds
Tricipital 10, Bicipital 5, Subescapular 12, Suprailíaco 8, the 2C
computation uses sum 35 and L = log10(35); the male 19<age≤29 Durnin band
gives density 1.1631 − 0.0632·L ≈ 1.0655 (between 1.06545 and 1.06552),
Siri percent ≈ 14.58 (between 14.55 and 14.61), fat mass ≈ 10.2 kg
(between 10.18 and 10.23), lean mass ≈ 59.8 kg (between 59.77 and 59.82),
and diagnostic "Nivel de grasa saludable (Atleta)". -/
theorem c1_caso :
    1.06545 < get_densidad_durnin "Masculino" 25 (Real.logb 10 35) ∧
    get_densidad_durnin "Masculino" 25 (Real.logb 10 35) < 1.06552 ∧
    14.55 < (calcular_composicion_2c_durnin_siri 70 "Masculino" 25 pliegues_caso).porc_grasa ∧
    (calcular_composicion_2c_durnin_siri 70 "Masculino" 25 pliegues_caso).porc_grasa < 14.61 ∧
    10.18 < (calcular_composicion_2c_durnin_siri 70 "Masculino" 25 pliegues_caso).masa_grasa ∧
    (calcular_composicion_2c_durnin_siri 70 "Masculino" 25 pliegues_caso).masa_grasa < 10.23 ∧
    59.77 < (calcular_composicion_2c_durnin_siri 70 "Masculino" 25 pliegues_caso).masa_magra ∧
    (calcular_composicion_2c_durnin_siri 70 "Masculino" 25 pliegues_caso).masa_magra < 59.82 ∧
    (calcular_composicion_2c_durnin_siri 70 "Masculino" 25 pliegues_caso).diag_grasa =
      "Nivel de grasa saludable (Atleta)" := by
  obtain ⟨h1, h2, hmg, hmm, hdiag⟩ := c1_caso_bounds
  have hL1 := logb_35_gt
  have hL2 := logb_35_lt
  have hdens_eq : get_densidad_durnin "Masculino" 25 (Real.logb 10 35) =
      1.1631 - 0.0632 * Real.logb 10 35 := by
    unfold get_densidad_durnin
    rw [if_pos rfl, if_neg (by norm_num), if_neg (by norm_num), if_pos (by norm_num)]
  refine ⟨by rw [hdens_eq]; linarith, by rw [hdens_eq]; linarith, h1, h2,
    by rw [hmg]; linarith, by rw [hmg]; linarith,
    by rw [hmm, hmg]; linarith, by rw [hmm, hmg]; linarith, hdiag⟩

end ComVida
